import Mathlib

/-!
Shallow embedding of the pixel-rpg-maker core logic: the entity library and
world-configuration model, the save/load engine, the battle arithmetic of the
encounter state machine, the startup legacy-key migration, and the storage
layer error/coercion behaviour. Definitions are translated directly from
src/App.tsx, src/services/storageService.ts and the Game component.
-/

namespace PixelRPG

/-- Entity category, from the EntityType enum in types. -/
inductive EntityType where
  | NPC
  | ENEMY
  | HERO
deriving DecidableEq, Repr

/-- Stats record. The source field named like the Lean keyword for
definitions (defense) is rendered as `df`. -/
structure Stats where
  hp : Int
  maxHp : Int
  mp : Int
  maxMp : Int
  atk : Int
  df : Int
deriving DecidableEq, Repr

/-- Entity record from types: id, name, description, type, imageBase64,
stats, optional dialoguePrompt, tags, optional originalPrompt. -/
structure Entity where
  id : String
  name : String
  description : String
  type : EntityType
  imageBase64 : String
  stats : Stats
  dialoguePrompt : Option String
  tags : List String
  originalPrompt : Option String
deriving DecidableEq, Repr

/-- Player record from types. -/
structure Player where
  name : String
  stats : Stats
  inventory : List String
  imageBase64 : Option String
deriving DecidableEq, Repr

/-- SaveData record from types: a slot snapshot. -/
structure SaveData where
  timestamp : String
  player : Player
  worldNpcs : List Entity
  worldEnemies : List Entity
  location : Option String
deriving DecidableEq, Repr

/-- The library and world-configuration part of the App state: the three
entity partitions plus the active world id list. -/
structure LibState where
  libraryNpcs : List Entity
  libraryEnemies : List Entity
  libraryHeroes : List Entity
  activeEntityIds : List String
deriving DecidableEq, Repr

/-- handleAddToLibrary from App.tsx: appends the entity to the partition
matching its type. There is no duplicate-id check in the source. -/
def handleAddToLibrary (entity : Entity) (s : LibState) : LibState :=
  match entity.type with
  | EntityType.NPC => { s with libraryNpcs := s.libraryNpcs ++ [entity] }
  | EntityType.ENEMY => { s with libraryEnemies := s.libraryEnemies ++ [entity] }
  | EntityType.HERO => { s with libraryHeroes := s.libraryHeroes ++ [entity] }

/-- handleAddToWorld from App.tsx: adds to the library, then, for a
non-HERO entity, appends its id to activeEntityIds when not already
present; for a HERO it only shows an alert and leaves activeEntityIds
unchanged. -/
def handleAddToWorld (entity : Entity) (s : LibState) : LibState :=
  let s1 := handleAddToLibrary entity s
  if entity.type ≠ EntityType.HERO then
    { s1 with activeEntityIds :=
        if s1.activeEntityIds.contains entity.id then s1.activeEntityIds
        else s1.activeEntityIds ++ [entity.id] }
  else s1

/-- handleDeleteFromLibrary from App.tsx: filters the given ids out of all
three partitions and out of activeEntityIds. -/
def handleDeleteFromLibrary (ids : List String) (s : LibState) : LibState :=
  { libraryNpcs := s.libraryNpcs.filter (fun e => !ids.contains e.id)
    libraryEnemies := s.libraryEnemies.filter (fun e => !ids.contains e.id)
    libraryHeroes := s.libraryHeroes.filter (fun e => !ids.contains e.id)
    activeEntityIds := s.activeEntityIds.filter (fun i => !ids.contains i) }

/-- One step of building a JavaScript Set insertion order: append the id
when it is not already present. -/
def addUnique (acc : List String) (i : String) : List String :=
  if i ∈ acc then acc else acc ++ [i]

/-- handleToggleWorldStatus from App.tsx: for shouldAdd, the new
activeEntityIds is the insertion-ordered union of the previous ids with the
target ids (a JS Set seeded from prev, then each target id added); for
removal, the target ids are filtered out. No entity type is checked. -/
def handleToggleWorldStatus (entities : List Entity) (shouldAdd : Bool)
    (s : LibState) : LibState :=
  let targetIds := entities.map (fun e => e.id)
  { s with activeEntityIds :=
      if shouldAdd then
        (s.activeEntityIds ++ targetIds).foldl addUnique []
      else
        s.activeEntityIds.filter (fun i => !targetIds.contains i) }

/-- Import bundle shape accepted by handleImportData, with the legacy
libraryMonsters alias. A `none` field models an absent key. -/
structure ImportBundle where
  libraryNpcs : Option (List Entity)
  libraryEnemies : Option (List Entity)
  libraryMonsters : Option (List Entity)
  libraryHeroes : Option (List Entity)
  labels : Option (List String)
  activeEntityIds : Option (List String)
deriving DecidableEq, Repr

/-- handleImportData from App.tsx, restricted to the library and
world-config state: each partition present in the bundle replaces the
existing one wholesale; libraryMonsters is consulted only when
libraryEnemies is absent; absent fields leave the state unchanged. -/
def handleImportData (data : ImportBundle) (s : LibState) : LibState :=
  { libraryNpcs :=
      match data.libraryNpcs with
      | some l => l
      | none => s.libraryNpcs
    libraryEnemies :=
      match data.libraryEnemies with
      | some l => l
      | none =>
        match data.libraryMonsters with
        | some m => m
        | none => s.libraryEnemies
    libraryHeroes :=
      match data.libraryHeroes with
      | some l => l
      | none => s.libraryHeroes
    activeEntityIds :=
      match data.activeEntityIds with
      | some l => l
      | none => s.activeEntityIds }

/-- All entities across the three partitions, in display order. -/
def allEntities (s : LibState) : List Entity :=
  s.libraryNpcs ++ s.libraryEnemies ++ s.libraryHeroes

/-- Total number of entities in the library. -/
def librarySize (s : LibState) : Nat :=
  (allEntities s).length

/-- Number of entities in the library carrying a given id. -/
def countId (i : String) (s : LibState) : Nat :=
  (allEntities s).countP (fun e => e.id == i)

/-- The world-config reference invariant: every active id names an entity
that exists in the library. -/
def refsOk (s : LibState) : Prop :=
  ∀ i ∈ s.activeEntityIds, ∃ e ∈ allEntities s, e.id = i

instance (s : LibState) : Decidable (refsOk s) := by
  unfold refsOk
  infer_instance

/-- A concrete entity, used by witnesses and counterexamples. -/
def mkEntity (i n : String) (t : EntityType) : Entity :=
  { id := i
    name := n
    description := ""
    type := t
    imageBase64 := ""
    stats := { hp := 20, maxHp := 20, mp := 10, maxMp := 10, atk := 5, df := 3 }
    dialoguePrompt := none
    tags := ["Fantasy"]
    originalPrompt := none }

/-- The empty library state. -/
def emptyLib : LibState :=
  { libraryNpcs := [], libraryEnemies := [], libraryHeroes := [],
    activeEntityIds := [] }

/-! Save/load engine, from handleSaveGame and handleLoadGame in App.tsx. -/

/-- The live session data that handleSaveGame snapshots: the player, the
runtime world lists and the current location of the Game component. -/
structure GameSession where
  player : Player
  worldNpcs : List Entity
  worldEnemies : List Entity
  location : Option String
deriving DecidableEq, Repr

/-- handleSaveGame from App.tsx: builds a SaveData snapshot and stores it
at index slotId - 1 of the slot-preview list. The source writes the
literal location TOWN into the snapshot regardless of the current session
location. -/
def handleSaveGame (slotId : Nat) (timestamp : String) (sess : GameSession)
    (slots : List (Option SaveData)) : List (Option SaveData) :=
  let data : SaveData :=
    { timestamp := timestamp
      player := sess.player
      worldNpcs := sess.worldNpcs
      worldEnemies := sess.worldEnemies
      location := some "TOWN" }
  slots.set (slotId - 1) (some data)

/-- handleLoadGame from App.tsx: reads the slot preview; when present it
restores player, worldNpcs and worldEnemies from the snapshot and sets the
game state to TOWN. The location field of the snapshot is never read; the
restored session is placed in TOWN. -/
def handleLoadGame (slotId : Nat) (slots : List (Option SaveData)) :
    Option GameSession :=
  match slots.getD (slotId - 1) none with
  | none => none
  | some data =>
    some { player := data.player
           worldNpcs := data.worldNpcs
           worldEnemies := data.worldEnemies
           location := some "TOWN" }

/-! Battle arithmetic and the player-facing operations of the encounter
state machine, from the Game component. -/

/-- The damage dealt by handleAttack: max(1, player atk - enemy def +
bonus), where bonus is Math.floor(Math.random() * 5). -/
def handleAttackDamage (atk df bonus : Int) : Int :=
  max 1 (atk - df + bonus)

/-- The damage dealt by enemyTurn: max(1, enemy atk - player def + bonus),
where bonus is Math.floor(Math.random() * 3). -/
def enemyTurnDamage (atk df bonus : Int) : Int :=
  max 1 (atk - df + bonus)

/-- The mutable battle-relevant state: the player stats and the current
enemy hit points. -/
structure PState where
  p : Stats
  enemyHp : Int
deriving DecidableEq, Repr

/-- One player-facing operation of the Game component, with the random
bonus draw made explicit. -/
inductive GameOp where
  | heal
  | attack (bonus : Int)
  | enemyTurn (bonus : Int)
  | townRest
deriving DecidableEq, Repr

/-- applyOp e op s runs one operation of the Game component against the
current enemy stats e.
heal: when mp is at least 10, restores 30 hp clamped to maxHp and spends
10 mp, else does nothing.
attack: deals handleAttackDamage to the enemy, clamped at 0; on defeat
(checked against the captured pre-update enemyHp) grants the fixed 10 hp
recovery clamped to maxHp.
enemyTurn: deals enemyTurnDamage to the player, clamped at 0; on defeat
(checked against the captured pre-update hp) revives the player at
Math.floor(maxHp / 2).
townRest: fully restores hp and mp. -/
def applyOp (e : Stats) (op : GameOp) (s : PState) : PState :=
  match op with
  | GameOp.heal =>
    if s.p.mp ≥ 10 then
      { s with p := { s.p with hp := min s.p.maxHp (s.p.hp + 30),
                               mp := s.p.mp - 10 } }
    else s
  | GameOp.attack bonus =>
    let dmg := handleAttackDamage s.p.atk e.df bonus
    let s1 := { s with enemyHp := max 0 (s.enemyHp - dmg) }
    if s.enemyHp - dmg ≤ 0 then
      { s1 with p := { s1.p with hp := min s1.p.maxHp (s1.p.hp + 10) } }
    else s1
  | GameOp.enemyTurn bonus =>
    let dmg := enemyTurnDamage e.atk s.p.df bonus
    let s1 := { s with p := { s.p with hp := max 0 (s.p.hp - dmg) } }
    if s.p.hp - dmg ≤ 0 then
      { s1 with p := { s1.p with hp := s1.p.maxHp / 2 } }
    else s1
  | GameOp.townRest =>
    { s with p := { s.p with hp := s.p.maxHp, mp := s.p.maxMp } }

/-- Run a sequence of Game operations. -/
def runOps (e : Stats) (ops : List GameOp) (s : PState) : PState :=
  ops.foldl (fun st op => applyOp e op st) s

/-- The hp/mp clamp invariant: player hp and mp within their maxima and
non-negative, enemy hp between 0 and the enemy maxHp. -/
def ClampInv (e : Stats) (s : PState) : Prop :=
  0 ≤ s.p.hp ∧ s.p.hp ≤ s.p.maxHp ∧ 0 ≤ s.p.mp ∧ s.p.mp ≤ s.p.maxMp ∧
    0 ≤ s.enemyHp ∧ s.enemyHp ≤ e.maxHp

instance (e : Stats) (s : PState) : Decidable (ClampInv e s) := by
  unfold ClampInv
  infer_instance

/-! Startup legacy-key migration, from initializeApp and the persistence
effects in App.tsx. -/

/-- The backend key/value records the startup path touches: one field per
persisted key. `none` models an absent key; saveSlots records are read but
never re-persisted by initializeApp, so they appear as one untouched
field. -/
structure BackendStore where
  npcs : Option (List Entity)
  enemies : Option (List Entity)
  monsters : Option (List Entity)
  heroes : Option (List Entity)
  labels : Option (List String)
  activeIds : Option (List String)
  autosave : Option Bool
  slots : List (Option SaveData)
deriving DecidableEq, Repr

/-- Default label vocabulary from initializeApp. -/
def defaultLabels : List String := ["Fantasy", "Sci-Fi", "Dark", "Boss"]

/-- getItem of a stored boolean: the storage layer resolves
request.result || null, so a stored false (falsy) is coerced to null,
while an absent key also reads as null. -/
def getItemBool (stored : Option Bool) : Option Bool :=
  match stored with
  | some b => if b then some b else none
  | none => none

/-- initializeApp followed by the persistence effects: each logical record
is read under its current key; for the enemies record the legacy monsters
key is consulted only when the current key is absent; the value adopted in
memory is then re-persisted under the current key by the saveToDB effects,
while the legacy key is left untouched. The autosave flag goes through the
falsy coercion of getItemBool and defaults to true when read as null. -/
def initializeAppMigration (s : BackendStore) : BackendStore :=
  let dbLibEnemies := s.enemies
  let legacyEnemies :=
    match dbLibEnemies with
    | none => s.monsters
    | some _ => none
  let adoptedEnemies :=
    match dbLibEnemies with
    | some l => l
    | none =>
      match legacyEnemies with
      | some l => l
      | none => []
  let adoptedAutoSave :=
    match getItemBool s.autosave with
    | some b => b
    | none => true
  { npcs := some (s.npcs.getD [])
    enemies := some adoptedEnemies
    monsters := s.monsters
    heroes := some (s.heroes.getD [])
    labels := some (s.labels.getD defaultLabels)
    activeIds := some (s.activeIds.getD [])
    autosave := some adoptedAutoSave
    slots := s.slots }

/-! Storage error propagation, from storageService.ts and the callers in
App.tsx. -/

/-- Outcome of one backend put: success, or failure carrying the raw
low-level backend error (a DOMException in the source). -/
inductive PutResult where
  | ok
  | fail (rawError : String)
deriving DecidableEq, Repr

/-- setItem from storageService.ts: the inner promise rejects with the raw
request error, and the outer catch logs and rethrows that same raw error,
so the caller receives the raw backend error unconverted. -/
def setItem (r : PutResult) : Except String Unit :=
  match r with
  | PutResult.ok => Except.ok ()
  | PutResult.fail e => Except.error e

/-- The storage-error banner text set by saveToDB in App.tsx. -/
def storageErrorBanner : String := "⚠️ Storage Error! Failed to save data."

/-- saveToDB from App.tsx: awaits setItem inside try/catch and converts a
failure into the user-visible banner; returns the banner to raise, if
any. -/
def saveToDB (r : PutResult) : Option String :=
  match setItem r with
  | Except.ok _ => none
  | Except.error _ => some storageErrorBanner

/-- handleSaveGame as an effectful operation: it awaits setItem with no
try/catch, so a failed put propagates the raw error past both the storage
layer and the save operation; only on success is the slot-preview list
updated. -/
def handleSaveGameIO (r : PutResult) (slotId : Nat) (timestamp : String)
    (sess : GameSession) (slots : List (Option SaveData)) :
    Except String (List (Option SaveData)) :=
  match setItem r with
  | Except.error e => Except.error e
  | Except.ok _ => Except.ok (handleSaveGame slotId timestamp sess slots)

/-! Falsy coercion at the storage interface, from getItem in
storageService.ts and the autosave load in initializeApp. -/

/-- A JavaScript value as stored in the backend. -/
inductive JSVal where
  | null
  | bool (b : Bool)
  | num (n : Int)
  | str (s : String)
  | arr (l : List JSVal)
deriving Repr

/-- JavaScript truthiness of a stored value: null, false, 0 and the empty
string are falsy; arrays are always truthy. -/
def truthy : JSVal → Bool
  | JSVal.null => false
  | JSVal.bool b => b
  | JSVal.num n => n != 0
  | JSVal.str s => s ≠ ""
  | JSVal.arr _ => true

/-- getItem from storageService.ts on a successful read: resolves
request.result || null, so an absent key and every falsy stored value both
come back as null. -/
def getItemResult (stored : Option JSVal) : Option JSVal :=
  match stored with
  | none => none
  | some v => if truthy v then some v else none

/-- The autosave flag as computed by initializeApp: getItem of the stored
boolean, then setAutoSave only when the result is not null; the state
default is true. -/
def loadAutoSave (stored : Option Bool) : Bool :=
  match getItemResult (stored.map JSVal.bool) with
  | some (JSVal.bool b) => b
  | _ => true

/-! Concrete inputs used by witnesses and counterexamples. -/

/-- A demo library: two NPC entities with ids a and c. -/
def demoLib : LibState :=
  { libraryNpcs := [mkEntity "a" "Alice" EntityType.NPC,
                    mkEntity "c" "Carol" EntityType.NPC]
    libraryEnemies := []
    libraryHeroes := []
    activeEntityIds := [] }

/-- A demo import bundle: one NPC overlapping id a (with different
fields) and one new NPC id b. -/
def demoBundle : ImportBundle :=
  { libraryNpcs := some [mkEntity "a" "Amy" EntityType.NPC,
                         mkEntity "b" "Bob" EntityType.NPC]
    libraryEnemies := none
    libraryMonsters := none
    libraryHeroes := none
    labels := none
    activeEntityIds := none }

/-- A demo live session located in the FOREST. -/
def demoSession : GameSession :=
  { player :=
      { name := "Hero"
        stats := { hp := 15, maxHp := 20, mp := 8, maxMp := 10, atk := 6, df := 2 }
        inventory := ["potion"]
        imageBase64 := none }
    worldNpcs := [mkEntity "n" "Nina" EntityType.NPC]
    worldEnemies := [mkEntity "g" "Goblin" EntityType.ENEMY]
    location := some "FOREST" }

/-- Three empty save slots. -/
def emptySlots : List (Option SaveData) := [none, none, none]

/-! Helper lemmas. -/

/-- Membership is preserved and the inserted id is present after one
addUnique step. -/
theorem mem_addUnique (acc : List String) (a x : String)
    (h : x ∈ acc ∨ x = a) : x ∈ addUnique acc a := by
  unfold addUnique
  split
  · rcases h with h | rfl
    · exact h
    · assumption
  · rcases h with h | rfl
    · exact List.mem_append_left _ h
    · exact List.mem_append_right _ (List.mem_singleton_self _)

/-- Every element of the accumulator or of the folded list is in the
result of folding addUnique. -/
theorem mem_foldl_addUnique (l acc : List String) (x : String)
    (h : x ∈ acc ∨ x ∈ l) : x ∈ l.foldl addUnique acc := by
  induction l generalizing acc with
  | nil => simpa using h
  | cons a t ih =>
    apply ih
    rcases h with h | h
    · exact Or.inl (mem_addUnique acc a x (Or.inl h))
    · rcases List.mem_cons.mp h with rfl | h
      · exact Or.inl (mem_addUnique acc x x (Or.inr rfl))
      · exact Or.inr h

/-- Adding an entity to the library grows the count of its id by one. -/
theorem countId_handleAddToLibrary (s : LibState) (e : Entity) :
    countId e.id (handleAddToLibrary e s) = countId e.id s + 1 := by
  cases h : e.type <;>
    simp [countId, allEntities, handleAddToLibrary, h, List.countP_append,
      List.countP_cons] <;> omega

/-- Adding an entity to the library grows the library size by one. -/
theorem librarySize_handleAddToLibrary (s : LibState) (e : Entity) :
    librarySize (handleAddToLibrary e s) = librarySize s + 1 := by
  cases h : e.type <;>
    simp [librarySize, allEntities, handleAddToLibrary, h] <;> omega

/-- An entity surviving the id filter stays in the library after a
delete. -/
theorem mem_allEntities_delete (ids : List String) (s : LibState)
    (ent : Entity) (h1 : ent ∈ allEntities s) (h2 : ent.id ∉ ids) :
    ent ∈ allEntities (handleDeleteFromLibrary ids s) := by
  have hc : ids.contains ent.id = false := by simpa using h2
  simp only [allEntities, List.mem_append] at h1
  simp only [allEntities, handleDeleteFromLibrary, List.mem_append,
    List.mem_filter, hc, Bool.not_false, and_true]
  exact h1

/-! Claim theorems. -/

/-- C1: the claim as stated is false. Importing demoBundle (one NPC with
the overlapping id a, one NPC with the new id b) into demoLib of size 2
yields a library of size 2, not 3, and the entity with id a now carries
the bundle name Amy instead of the original Alice. -/
theorem C1_counterexample :
    librarySize demoLib = 2 ∧
    librarySize (handleImportData demoBundle demoLib) ≠ 2 + 1 ∧
    ((handleImportData demoBundle demoLib).libraryNpcs.filter
        (fun e => e.id == "a")).map Entity.name = ["Amy"] := by
  decide

/-- C1 amended: handleImportData does not merge by id. A partition present
in the bundle replaces the existing partition wholesale, so the result is
exactly the bundle list (overlapping entities take the bundle fields,
library entities missing from the bundle are dropped); an absent partition
is kept unchanged; libraryMonsters is honoured as a legacy alias for
libraryEnemies only when libraryEnemies is absent. -/
theorem C1_import_replaces_wholesale (s : LibState) (d : ImportBundle) :
    (∀ l, d.libraryNpcs = some l → (handleImportData d s).libraryNpcs = l) ∧
    (∀ l, d.libraryEnemies = some l →
      (handleImportData d s).libraryEnemies = l) ∧
    (d.libraryNpcs = none →
      (handleImportData d s).libraryNpcs = s.libraryNpcs) ∧
    (∀ m, d.libraryEnemies = none → d.libraryMonsters = some m →
      (handleImportData d s).libraryEnemies = m) := by
  refine ⟨?_, ?_, ?_, ?_⟩
  · intro l hl
    simp [handleImportData, hl]
  · intro l hl
    simp [handleImportData, hl]
  · intro hl
    simp [handleImportData, hl]
  · intro m h1 h2
    simp [handleImportData, h1, h2]

/-- C1 witness: the replacement theorem applied to the demo bundle and
demo library. -/
theorem C1_witness :
    (handleImportData demoBundle demoLib).libraryNpcs =
      [mkEntity "a" "Amy" EntityType.NPC, mkEntity "b" "Bob" EntityType.NPC] :=
  (C1_import_replaces_wholesale demoLib demoBundle).1 _ rfl

/-- C2: the claim as stated is false. Saving the demo session, whose
location is FOREST, to slot 1 and loading slot 1 does not restore the
session: the restored location is TOWN, because handleSaveGame writes the
literal TOWN into the snapshot and handleLoadGame always returns to TOWN. -/
theorem C2_counterexample :
    demoSession.location = some "FOREST" ∧
    handleLoadGame 1 (handleSaveGame 1 "t0" demoSession emptySlots) ≠
      some demoSession ∧
    (handleLoadGame 1 (handleSaveGame 1 "t0" demoSession emptySlots)).map
      GameSession.location = some (some "TOWN") := by
  decide

/-- C2 amended: save to slot 1 followed by load of slot 1 restores the
player, the world NPC list and the world enemy list field for field (deep
equality, nested tag lists included); the location, however, is not round
tripped: the restored session is always located in TOWN regardless of the
location at save time. -/
theorem C2_save_load_roundtrip (sess : GameSession) (ts : String)
    (slots : List (Option SaveData)) (h : 0 < slots.length) :
    handleLoadGame 1 (handleSaveGame 1 ts sess slots) =
      some { player := sess.player
             worldNpcs := sess.worldNpcs
             worldEnemies := sess.worldEnemies
             location := some "TOWN" } := by
  cases slots with
  | nil => simp at h
  | cons a t => simp [handleSaveGame, handleLoadGame]

/-- C2 witness: the round-trip theorem applied to the demo session and the
three empty slots. -/
theorem C2_witness :
    handleLoadGame 1 (handleSaveGame 1 "t0" demoSession emptySlots) =
      some { player := demoSession.player
             worldNpcs := demoSession.worldNpcs
             worldEnemies := demoSession.worldEnemies
             location := some "TOWN" } :=
  C2_save_load_roundtrip demoSession "t0" emptySlots (by decide)

/-- C3: the claim as stated is false. Adding an entity whose id already
occurs in the library does not leave the library unchanged: with demoLib
already containing the NPC with id a, adding that entity again changes the
state and the library then holds two entries with id a. -/
theorem C3_counterexample :
    handleAddToLibrary (mkEntity "a" "Alice" EntityType.NPC) demoLib ≠
      demoLib ∧
    countId "a"
      (handleAddToLibrary (mkEntity "a" "Alice" EntityType.NPC) demoLib) = 2 := by
  decide

/-- C3 amended: handleAddToLibrary is not idempotent. It appends
unconditionally to the partition matching the entity type: every add grows
the count of the added id by one, so adding the same entity twice yields a
library with two more entries carrying that id, not the same library as
adding it once. -/
theorem C3_add_not_idempotent (s : LibState) (e : Entity) :
    countId e.id (handleAddToLibrary e s) = countId e.id s + 1 ∧
    countId e.id (handleAddToLibrary e (handleAddToLibrary e s)) =
      countId e.id s + 2 ∧
    handleAddToLibrary e (handleAddToLibrary e s) ≠ handleAddToLibrary e s := by
  refine ⟨countId_handleAddToLibrary s e, ?_, ?_⟩
  · rw [countId_handleAddToLibrary, countId_handleAddToLibrary]
  · intro hEq
    have := congrArg librarySize hEq
    rw [librarySize_handleAddToLibrary] at this
    omega

/-- C3 witness: the count growth evaluated at the demo library and the
NPC with the already present id a. -/
theorem C3_witness :
    countId "a" (handleAddToLibrary (mkEntity "a" "Alice" EntityType.NPC)
      demoLib) = countId "a" demoLib + 1 :=
  (C3_add_not_idempotent demoLib (mkEntity "a" "Alice" EntityType.NPC)).1

/-- C4: the claim as stated is false. handleToggleWorldStatus with
shouldAdd true adds a HERO id to the active world ids: toggling a single
HERO entity into the world of the empty library yields exactly its id in
activeEntityIds. -/
theorem C4_counterexample :
    (mkEntity "h" "Hera" EntityType.HERO).type = EntityType.HERO ∧
    (handleToggleWorldStatus [mkEntity "h" "Hera" EntityType.HERO] true
        emptyLib).activeEntityIds = ["h"] := by
  decide

/-- C4 amended: handleToggleWorldStatus performs no entity-type check:
with shouldAdd true, every id of the passed entity list, HERO ids
included, ends up in activeEntityIds. The HERO rejection exists only in
handleAddToWorld, which warns and leaves activeEntityIds unchanged for a
HERO entity. -/
theorem C4_toggle_has_no_hero_check (s : LibState) (entities : List Entity)
    (e : Entity) (h : e ∈ entities) :
    e.id ∈ (handleToggleWorldStatus entities true s).activeEntityIds ∧
    (∀ a : Entity, a.type = EntityType.HERO →
      (handleAddToWorld a s).activeEntityIds = s.activeEntityIds) := by
  constructor
  · simp only [handleToggleWorldStatus, if_pos]
    exact mem_foldl_addUnique _ _ _
      (Or.inr (List.mem_append_right _ (List.mem_map_of_mem _ h)))
  · intro a ha
    have htype : ¬a.type ≠ EntityType.HERO := by simp [ha]
    simp only [handleAddToWorld, if_neg htype]
    cases hty : a.type <;> simp [handleAddToLibrary, hty]

/-- C4 witness: the theorem applied to a single HERO entity toggled into
the empty library. -/
theorem C4_witness :
    (mkEntity "h" "Hera" EntityType.HERO).id ∈
      (handleToggleWorldStatus [mkEntity "h" "Hera" EntityType.HERO] true
        emptyLib).activeEntityIds :=
  (C4_toggle_has_no_hero_check emptyLib [mkEntity "h" "Hera" EntityType.HERO]
    (mkEntity "h" "Hera" EntityType.HERO) (List.mem_singleton_self _)).1

/-- C5: cascade invariant of handleDeleteFromLibrary. Adding an entity and
then deleting its id leaves activeEntityIds without that id; more
generally no deleted id survives in activeEntityIds; and when every active
id referenced an existing library entity before the delete, every id still
active afterwards again references an existing library entity (both the
partitions and activeEntityIds are filtered in the same operation). -/
theorem C5_cascade_invariant (s : LibState) (ids : List String) (e : Entity) :
    e.id ∉ (handleDeleteFromLibrary [e.id]
      (handleAddToLibrary e s)).activeEntityIds ∧
    (∀ x ∈ ids, x ∉ (handleDeleteFromLibrary ids s).activeEntityIds) ∧
    (refsOk s → refsOk (handleDeleteFromLibrary ids s)) := by
  refine ⟨?_, ?_, ?_⟩
  · intro hmem
    rcases List.mem_filter.mp hmem with ⟨-, hp⟩
    simp at hp
  · intro x hx hmem
    rcases List.mem_filter.mp hmem with ⟨-, hp⟩
    rw [Bool.not_eq_eq_eq_not, Bool.not_true] at hp
    have : x ∉ ids := by simpa using hp
    exact this hx
  · intro hOk x hx
    rcases List.mem_filter.mp hx with ⟨hxPrev, hp⟩
    rw [Bool.not_eq_eq_eq_not, Bool.not_true] at hp
    have hxIds : x ∉ ids := by simpa using hp
    rcases hOk x hxPrev with ⟨ent, hEnt, hEq⟩
    exact ⟨ent, mem_allEntities_delete ids s ent hEnt (hEq ▸ hxIds), hEq⟩

/-- C5 witness: the cascade theorem applied to the demo library, deleting
ids a and b after adding the NPC with id a; the reference invariant of the
demo library is discharged by evaluation. -/
theorem C5_witness :
    (mkEntity "a" "Alice" EntityType.NPC).id ∉
      (handleDeleteFromLibrary ["a"]
        (handleAddToLibrary (mkEntity "a" "Alice" EntityType.NPC)
          demoLib)).activeEntityIds ∧
    "a" ∉ (handleDeleteFromLibrary ["a", "b"] demoLib).activeEntityIds ∧
    refsOk (handleDeleteFromLibrary ["a", "b"] demoLib) := by
  have h := C5_cascade_invariant demoLib ["a", "b"]
    (mkEntity "a" "Alice" EntityType.NPC)
  have h1 := C5_cascade_invariant demoLib ["a"]
    (mkEntity "a" "Alice" EntityType.NPC)
  exact ⟨h1.1, h.2.1 "a" (by decide), h.2.2 (by decide)⟩

/-- C6: damage bounds. The player attack damage is
max(1, atk - def + bonus) with bonus drawn from [0, 5), the enemy counter
attack uses the same formula with bonus from [0, 3); both are at least 1
for all stat values, and with atk = 10 and def = 10 the player damage lies
in [1, 5). -/
theorem C6_damage_bounds (atkP dfE bP atkE dfP bE : Int)
    (h1 : 0 ≤ bP) (h2 : bP < 5) (h3 : 0 ≤ bE) (h4 : bE < 3) :
    handleAttackDamage atkP dfE bP = max 1 (atkP - dfE + bP) ∧
    1 ≤ handleAttackDamage atkP dfE bP ∧
    1 ≤ enemyTurnDamage atkE dfP bE ∧
    (atkP = 10 → dfE = 10 →
      1 ≤ handleAttackDamage atkP dfE bP ∧ handleAttackDamage atkP dfE bP < 5) := by
  unfold handleAttackDamage enemyTurnDamage
  refine ⟨rfl, by omega, by omega, ?_⟩
  intro hA hD
  subst hA
  subst hD
  omega

/-- C6 witness: the bounds at atk 10, def 10, player bonus 3, enemy stats
12 and 4 with bonus 2. -/
theorem C6_witness :
    1 ≤ handleAttackDamage 10 10 3 ∧ handleAttackDamage 10 10 3 < 5 :=
  (C6_damage_bounds 10 10 3 12 4 2 (by decide) (by decide) (by decide)
    (by decide)).2.2.2 rfl rfl

/-- Each Game operation preserves the hp/mp clamp invariant. -/
theorem applyOp_preserves_clamp (e : Stats) (op : GameOp) (s : PState)
    (h : ClampInv e s) : ClampInv e (applyOp e op s) := by
  obtain ⟨h1, h2, h3, h4, h5, h6⟩ := h
  cases op <;>
    simp only [applyOp, handleAttackDamage, enemyTurnDamage, ClampInv] <;>
    (try split_ifs) <;> (try dsimp only) <;> omega

/-- C7: the clamp invariant holds after every finite sequence of heal,
attack (with its enemy counter-attack, defeat reward and revival) and
townRest operations: starting from a state with 0 ≤ hp ≤ maxHp,
0 ≤ mp ≤ maxMp and 0 ≤ enemyHp ≤ enemy maxHp, the resulting state
satisfies the same bounds. -/
theorem C7_clamp_invariant (e : Stats) (s0 : PState) (ops : List GameOp)
    (h : ClampInv e s0) : ClampInv e (runOps e ops s0) := by
  induction ops generalizing s0 with
  | nil => simpa [runOps] using h
  | cons op t ih =>
    have hstep := applyOp_preserves_clamp e op s0 h
    simpa [runOps] using ih (applyOp e op s0) hstep

/-- C7 witness: a concrete battle sequence (attack, enemy counter, heal,
attack, town rest) run from a concrete in-bounds state. -/
theorem C7_witness :
    ClampInv { hp := 30, maxHp := 30, mp := 12, maxMp := 12, atk := 7, df := 4 }
      (runOps { hp := 30, maxHp := 30, mp := 12, maxMp := 12, atk := 7, df := 4 }
        [GameOp.attack 2, GameOp.enemyTurn 1, GameOp.heal, GameOp.attack 4,
         GameOp.townRest]
        { p := { hp := 18, maxHp := 25, mp := 10, maxMp := 10, atk := 6, df := 1 }
          enemyHp := 30 }) :=
  C7_clamp_invariant
    { hp := 30, maxHp := 30, mp := 12, maxMp := 12, atk := 7, df := 4 }
    { p := { hp := 18, maxHp := 25, mp := 10, maxMp := 10, atk := 6, df := 1 }
      enemyHp := 30 }
    [GameOp.attack 2, GameOp.enemyTurn 1, GameOp.heal, GameOp.attack 4,
     GameOp.townRest]
    (by decide)

/-- C8: the startup migration is idempotent on every backend state:
running it twice equals running it once; the legacy monsters key is left
untouched; the legacy value is consulted only when the current enemies key
is absent (a present enemies value is kept as is), and when it is absent
the monsters value is adopted and re-persisted under the enemies key. -/
theorem C8_migration_idempotent (s : BackendStore) :
    initializeAppMigration (initializeAppMigration s) =
      initializeAppMigration s ∧
    (initializeAppMigration s).monsters = s.monsters ∧
    (∀ v, s.enemies = some v → (initializeAppMigration s).enemies = some v) ∧
    (s.enemies = none →
      (initializeAppMigration s).enemies = some (s.monsters.getD [])) := by
  obtain ⟨n, en, mo, he, la, ai, au, sl⟩ := s
  refine ⟨?_, rfl, ?_, ?_⟩
  · rcases au with _ | b
    · cases en <;> simp [initializeAppMigration, getItemBool]
    · cases b <;> cases en <;> simp [initializeAppMigration, getItemBool]
  · intro v hv
    simp only at hv
    simp [initializeAppMigration, hv]
  · intro hv
    simp only at hv
    cases mo <;> simp [initializeAppMigration, hv]

/-- A backend state holding only the legacy monsters record. -/
def demoStoreLegacy : BackendStore :=
  { npcs := none, enemies := none,
    monsters := some [mkEntity "m" "Imp" EntityType.ENEMY],
    heroes := none, labels := none, activeIds := none,
    autosave := some false, slots := [none, none, none] }

/-- A backend state where the current enemies record is present alongside
a stale legacy record. -/
def demoStoreCurrent : BackendStore :=
  { npcs := none, enemies := some [mkEntity "e" "Orc" EntityType.ENEMY],
    monsters := some [mkEntity "m" "Imp" EntityType.ENEMY],
    heroes := none, labels := none, activeIds := none,
    autosave := none, slots := [none, none, none] }

/-- C8 witness: idempotence and the legacy/current key behaviour evaluated
on the two demo backend states. -/
theorem C8_witness :
    initializeAppMigration (initializeAppMigration demoStoreLegacy) =
      initializeAppMigration demoStoreLegacy ∧
    (initializeAppMigration demoStoreLegacy).enemies =
      some [mkEntity "m" "Imp" EntityType.ENEMY] ∧
    (initializeAppMigration demoStoreCurrent).enemies =
      some [mkEntity "e" "Orc" EntityType.ENEMY] ∧
    (initializeAppMigration demoStoreLegacy).monsters =
      demoStoreLegacy.monsters :=
  ⟨(C8_migration_idempotent demoStoreLegacy).1,
   (C8_migration_idempotent demoStoreLegacy).2.2.2 rfl,
   (C8_migration_idempotent demoStoreCurrent).2.2.1 _ rfl,
   (C8_migration_idempotent demoStoreLegacy).2.1⟩

/-- C9: the claim as stated is false. A failed put inside handleSaveGameIO
propagates the raw backend error (here a QuotaExceededError string) past
the storage layer and past the save operation itself, because setItem
rethrows the raw error and handleSaveGame awaits it without a catch; by
contrast the saveToDB wrapper converts the same failure into the
storage-error banner. -/
theorem C9_counterexample :
    handleSaveGameIO (PutResult.fail "QuotaExceededError") 1 "t0" demoSession
        emptySlots = Except.error "QuotaExceededError" ∧
    saveToDB (PutResult.fail "QuotaExceededError") = some storageErrorBanner :=
  ⟨rfl, rfl⟩

/-- C9 amended: error flow at the storage boundary. getItem-style
conversion happens only in saveToDB, which maps a failed put to the
non-fatal storage-error banner; handleSaveGameIO has no catch, so a failed
put surfaces the raw backend error unconverted and the slot-preview list
is not updated; a successful put updates the slots as handleSaveGame
does. -/
theorem C9_raw_error_propagation (er : String) (slotId : Nat) (ts : String)
    (sess : GameSession) (slots : List (Option SaveData)) :
    handleSaveGameIO (PutResult.fail er) slotId ts sess slots =
      Except.error er ∧
    saveToDB (PutResult.fail er) = some storageErrorBanner ∧
    handleSaveGameIO PutResult.ok slotId ts sess slots =
      Except.ok (handleSaveGame slotId ts sess slots) ∧
    saveToDB PutResult.ok = none :=
  ⟨rfl, rfl, rfl, rfl⟩

/-- C9 witness: the propagation theorem evaluated at a concrete failed put
against the demo session. -/
theorem C9_witness :
    handleSaveGameIO (PutResult.fail "disk full") 2 "t1" demoSession
      emptySlots = Except.error "disk full" :=
  (C9_raw_error_propagation "disk full" 2 "t1" demoSession emptySlots).1

/-- C10: the get/set round-trip gap. Every falsy stored value is coerced
to null by getItem, in particular the stored boolean false is read back as
null rather than false, so the autosave flag persisted as false is treated
as absent and the application falls back to the default autoSave = true
(while a stored true is read back as true). -/
theorem C10_falsy_roundtrip_gap :
    (∀ v : JSVal, truthy v = false → getItemResult (some v) = none) ∧
    getItemResult (some (JSVal.bool false)) = none ∧
    getItemResult (some (JSVal.bool false)) ≠ some (JSVal.bool false) ∧
    loadAutoSave (some false) = true ∧
    loadAutoSave none = true ∧
    loadAutoSave (some true) = true := by
  refine ⟨?_, rfl, ?_, rfl, rfl, rfl⟩
  · intro v hv
    simp [getItemResult, hv]
  · simp [getItemResult, truthy]

/-- C10 witness: the coercion theorem applied to the falsy number 0 and
the stored boolean false. -/
theorem C10_witness :
    getItemResult (some (JSVal.num 0)) = none ∧
    getItemResult (some (JSVal.bool false)) = none :=
  ⟨C10_falsy_roundtrip_gap.1 (JSVal.num 0) rfl,
   C10_falsy_roundtrip_gap.1 (JSVal.bool false) rfl⟩

end PixelRPG
